import Mathlib

/-!
Shallow embedding of the Carbon-AI normalization-and-ranking pipeline
(`src/normalization/engine.py`, `src/agent/planner.py`, `src/agent/executor.py`,
`src/agent/critic.py`, `src/agent/carbon_ranker.py`).

Python floats are modelled as exact rationals; Python exceptions raised inside
field normalizers are modelled by `Option` results (`none` = a `ValueError`
propagating out of the normalizer).  Log-message interpolation (f-strings) is
elided: log entries keep their kind (imputed / error) and a representative
constant message, which is all the quality scoring and the claims inspect.
-/

unseal Rat.mul Rat.add Rat.sub Rat.inv Rat.ofScientific

namespace CarbonAI

/-! ## String and number utilities (models of Python `str`/`re`/`float`/`int`) -/

/-- Characters treated as whitespace by Python's `str.strip` and `\s`. -/
def isPySpace (c : Char) : Bool :=
  c == ' ' || c == '\t' || c == '\n' || c == '\r' || c == '\x0b' || c == '\x0c'

/-- Model of Python `str.strip()` on a list of characters. -/
def stripList (l : List Char) : List Char :=
  ((l.dropWhile isPySpace).reverse.dropWhile isPySpace).reverse

/-- Model of the Python guard `not v or v.strip() == ""` (empty / whitespace-only). -/
def isBlank (s : String) : Bool :=
  stripList s.toList == []

/-- Characters matched by the regex class `[\d.]`. -/
def isDigitDot (c : Char) : Bool :=
  c.isDigit || c == '.'

/-- Model of `re.search(cls+, s)`: the first maximal run of characters in `p`,
together with the remainder of the string after the run; `none` if no
character satisfies `p`. -/
def firstRunSplit (p : Char → Bool) : List Char → Option (List Char × List Char)
  | [] => none
  | c :: cs =>
    if p c then some (c :: cs.takeWhile p, cs.dropWhile p)
    else firstRunSplit p cs

/-- Numeric value of a list of decimal digit characters. -/
def digitsToNat (l : List Char) : ℕ :=
  l.foldl (fun acc c => 10 * acc + (c.toNat - 48)) 0

/-- Model of Python `float(tok)` on a token drawn from the regex class `[\d.]+`:
succeeds iff the token has at least one digit and at most one dot
(`float(".")` and `float("1.2.3")` raise `ValueError`). -/
def parseDigitDotToken (l : List Char) : Option ℚ :=
  let dots := (l.filter (· == '.')).length
  if dots = 0 then
    if l = [] then none else some ((digitsToNat l : ℚ))
  else if dots = 1 then
    let intPart := l.takeWhile (· != '.')
    let fracPart := (l.dropWhile (· != '.')).drop 1
    if intPart = [] ∧ fracPart = [] then none
    else some ((digitsToNat intPart : ℚ) + (digitsToNat fracPart : ℚ) / (10 : ℚ) ^ fracPart.length)
  else none

/-- Optional leading sign; returns (isNegative, rest). -/
def parseSign : List Char → (Bool × List Char)
  | '-' :: r => (true, r)
  | '+' :: r => (false, r)
  | l => (false, l)

/-- Exponent part of a Python float literal: optional sign followed by digits. -/
def parseExponent (l : List Char) : Option ℤ :=
  let s := parseSign l
  if !s.2.isEmpty && s.2.all Char.isDigit then
    some (if s.1 then -(digitsToNat s.2 : ℤ) else (digitsToNat s.2 : ℤ))
  else none

/-- Ten to an integer power, as a rational. -/
def qpow10 : ℤ → ℚ
  | Int.ofNat n => (10 : ℚ) ^ n
  | Int.negSucc n => 1 / ((10 : ℚ) ^ (n + 1))

/-- Model of Python `float(s)` on a whole string: strips whitespace, optional
sign, mantissa of digits with at most one dot, optional `e`/`E` exponent.
Underscore digit separators and the `inf`/`nan` literals are not modelled
(`inf`/`nan` fail the only range check this parser feeds, `0 <= x <= 100`). -/
def pyFloat? (s : String) : Option ℚ :=
  let l := stripList s.toList
  let sg := parseSign l
  let mant := sg.2.takeWhile (fun c => c != 'e' && c != 'E')
  let rest := sg.2.drop mant.length
  if mant.all isDigitDot then
    match parseDigitDotToken mant with
    | none => none
    | some m =>
      match rest with
      | [] => some (if sg.1 then -m else m)
      | _ :: er =>
        match parseExponent er with
        | some e => some (if sg.1 then -(m * qpow10 e) else m * qpow10 e)
        | none => none
  else none

/-- Does `needle` occur as a prefix of `hay`? -/
def startsWithList : List Char → List Char → Bool
  | [], _ => true
  | _ :: _, [] => false
  | n :: ns, h :: hs => n == h && startsWithList ns hs

/-- Does `needle` occur as a contiguous substring of `hay`?
(model of Python `needle in hay`). -/
def containsSub (needle : List Char) : List Char → Bool
  | [] => needle.isEmpty
  | h :: hs => startsWithList needle (h :: hs) || containsSub needle hs

/-- Case-insensitive match of a lowercase word against the head of a list;
returns the remainder after the word on success. -/
def matchWordCI : List Char → List Char → Option (List Char)
  | [], l => some l
  | _ :: _, [] => none
  | w :: ws, c :: cs => if c.toLower == w then matchWordCI ws cs else none

/-- First word of `words` that matches at the head of `l` (regex alternation
preference order), with the remainder on success. -/
def matchAnyWordCI : List (List Char) → List Char → Option (List Char)
  | [], _ => none
  | w :: ws, l =>
    match matchWordCI w l with
    | some r => some r
    | none => matchAnyWordCI ws l

/-- Worker for `removeWords`, with explicit fuel (always called with fuel
larger than the list length, so the fuel never runs out). -/
def removeWordsAux (words : List (List Char)) : ℕ → List Char → List Char
  | 0, l => l
  | _ + 1, [] => []
  | fuel + 1, c :: cs =>
    let l := c :: cs
    let ws := l.takeWhile isPySpace
    let rest := l.drop ws.length
    match matchAnyWordCI words rest with
    | some r => removeWordsAux words fuel (r.dropWhile isPySpace)
    | none => c :: removeWordsAux words fuel cs

/-- Model of `re.sub(r'\s*(w1|w2|...)\s*', '', s, flags=IGNORECASE)`: scan left
to right; at each position, if (after a run of whitespace) one of the words
matches, drop the whitespace, the word and any trailing whitespace, else keep
the character and move on.  The word alternatives are listed in the regex's
preference order. -/
def removeWords (words : List (List Char)) (l : List Char) : List Char :=
  removeWordsAux words (l.length + 1) l

/-! ## Data model -/

/-- A raw vendor record (`RawIngest`): free-text fields as ingested. -/
structure RawRecord where
  company : String
  month : String
  region : String
  gpu_hours_raw : String
  energy_raw : String
  tokens_raw : String
  api_calls_raw : String
  pue_raw : String
  utilization_raw : String
deriving DecidableEq, Repr

/-- One value of the per-field imputation log: the empty dict, an
`imputed` note, or an `error` note. -/
inductive LogEntry
  | clean
  | imputed (msg : String)
  | error (msg : String)
deriving DecidableEq, Repr

/-- The imputation log of `DataNormalizer.normalize_record`, keyed by field.
`energy_imputation` is `clean` when the key is absent. -/
structure ImputationLog where
  gpu_hours : LogEntry
  energy : LogEntry
  tokens : LogEntry
  api_calls : LogEntry
  pue : LogEntry
  utilization : LogEntry
  energy_imputation : LogEntry
deriving DecidableEq, Repr

/-- Imputation log with no entries set. -/
def emptyImputationLog : ImputationLog :=
  ⟨.clean, .clean, .clean, .clean, .clean, .clean, .clean⟩

/-- The normalized-data dict built by `normalize_record`.  The Python dict has
no `imputation_log` key (the log lives on the `NormalizationResult`). -/
structure NormalizedData where
  company : String
  month : String
  region : String
  gpu_hours : ℚ
  utilization : ℚ
  it_kwh : ℚ
  total_kwh : ℚ
  intensity_g_per_kwh : ℚ
  tco2e : ℚ
  tokens : ℚ
  api_calls : ℚ
  pue_used : ℚ
  data_quality : ℚ
deriving DecidableEq, Repr

/-- Result of `DataNormalizer.normalize_record`; `data = none` models the
exception path (quality 0, no data). -/
structure NormalizationResult where
  success : Bool
  data : Option NormalizedData
  quality_score : ℚ
  imputation_log : ImputationLog
  errors : List String
deriving DecidableEq, Repr

/-! ## Field normalizers (`DataNormalizer`) -/

/-- Default PUE substituted for missing or out-of-range values. -/
def default_pue : ℚ := 13 / 10

/-- Assumed GPU power draw in kW, used for energy imputation. -/
def default_gpu_power : ℚ := 2 / 5

/-- Quality-score penalty per imputed field. -/
def imputation_penalty : ℚ := 10

/-- Word alternatives of `r'\s*(hrs?|hours?)\s*'` in preference order. -/
def gpu_hour_words : List (List Char) :=
  ["hrs", "hr", "hours", "hour"].map String.toList

/-- Word alternatives of `r'\s*(tokens?|tok)\s*'` in preference order. -/
def token_words : List (List Char) :=
  ["tokens", "token", "tok"].map String.toList

/-- Word alternatives of `r'\s*(calls?|requests?)\s*'` in preference order. -/
def api_call_words : List (List Char) :=
  ["calls", "call", "requests", "request"].map String.toList

/-- `DataNormalizer.normalize_gpu_hours`: strip `hrs`/`hours` suffixes, extract
the first numeric token; the `float` call is inside `try/except ValueError`,
so the function is total. -/
def normalize_gpu_hours (raw : String) : ℚ × LogEntry :=
  if isBlank raw then (0, .error "Missing GPU hours")
  else
    let cleaned := removeWords gpu_hour_words (stripList raw.toList)
    match firstRunSplit isDigitDot cleaned with
    | none => (0, .error "No numeric value found in GPU hours")
    | some p =>
      match parseDigitDotToken p.1 with
      | none => (0, .error "Invalid GPU hours format")
      | some v => (v, .clean)

/-- `DataNormalizer.normalize_energy`: `mwh` multiplies by 1000, `kwh` and the
unit-less case pass through.  There is no `try/except` here, so a numeric
token that `float` rejects (e.g. `"..."`) raises: modelled by `none`. -/
def normalize_energy (raw : String) : Option (ℚ × LogEntry) :=
  if isBlank raw then some (0, .imputed "Energy consumption missing")
  else
    let cleaned := stripList raw.toList
    let lowered := cleaned.map Char.toLower
    if containsSub "mwh".toList lowered then
      match firstRunSplit isDigitDot cleaned with
      | some p =>
        match parseDigitDotToken p.1 with
        | some v => some (v * 1000, .clean)
        | none => none
      | none => some (0, .error "Invalid energy format")
    else if containsSub "kwh".toList lowered then
      match firstRunSplit isDigitDot cleaned with
      | some p =>
        match parseDigitDotToken p.1 with
        | some v => some (v, .clean)
        | none => none
      | none => some (0, .error "Invalid energy format")
    else
      match firstRunSplit isDigitDot cleaned with
      | some p =>
        match parseDigitDotToken p.1 with
        | some v => some (v, .clean)
        | none => none
      | none => some (0, .error "Invalid energy format")

/-- `DataNormalizer.normalize_tokens`: lowercase, strip `tokens`/`tok`, parse
`<number><k|m|b>?`.  No `try/except`: a bad numeric token raises (`none`). -/
def normalize_tokens (raw : String) : Option (ℚ × LogEntry) :=
  if isBlank raw then some (0, .imputed "Token count missing")
  else
    let cleaned := removeWords token_words ((stripList raw.toList).map Char.toLower)
    match firstRunSplit isDigitDot cleaned with
    | none => some (0, .error "Invalid token format")
    | some p =>
      match parseDigitDotToken p.1 with
      | none => none
      | some value =>
        let rest2 := p.2.dropWhile isPySpace
        match rest2 with
        | 'k' :: _ => some (value * 1000, .clean)
        | 'm' :: _ => some (value * 1000000, .clean)
        | 'b' :: _ => some (value * 1000000000, .clean)
        | _ => some (value, .clean)

/-- `DataNormalizer.normalize_api_calls`: strip `calls`/`requests`, extract the
first `[\d,]+` run, drop commas, parse as int; `int("")` raises `ValueError`
which is caught. -/
def normalize_api_calls (raw : String) : ℚ × LogEntry :=
  if isBlank raw then (0, .imputed "API calls missing")
  else
    let cleaned := removeWords api_call_words (stripList raw.toList)
    match firstRunSplit (fun c => c.isDigit || c == ',') cleaned with
    | none => (0, .error "Invalid API calls format")
    | some p =>
      let digits := p.1.filter (· != ',')
      if digits.isEmpty then (0, .error "Invalid API calls format")
      else ((digitsToNat digits : ℚ), .clean)

/-- `DataNormalizer.normalize_pue`: extract numeric value; missing, invalid or
out-of-range `[1, 3]` values are replaced by the default 1.3. -/
def normalize_pue (raw : String) : ℚ × LogEntry :=
  if isBlank raw then (default_pue, .imputed "PUE missing, using default")
  else
    match firstRunSplit isDigitDot (stripList raw.toList) with
    | none => (default_pue, .imputed "PUE format invalid, using default")
    | some p =>
      match parseDigitDotToken p.1 with
      | none => (default_pue, .imputed "PUE invalid, using default")
      | some pue =>
        if pue < 1 ∨ pue > 3 then (default_pue, .imputed "PUE out of range, using default")
        else (pue, .clean)

/-- `DataNormalizer.normalize_utilization`: strip `%`, extract numeric value,
cap values above 100 at 100. -/
def normalize_utilization (raw : String) : ℚ × LogEntry :=
  if isBlank raw then (0, .imputed "Utilization missing")
  else
    let cleaned := (stripList raw.toList).filter (· != '%')
    match firstRunSplit isDigitDot cleaned with
    | none => (0, .error "Invalid utilization format")
    | some p =>
      match parseDigitDotToken p.1 with
      | none => (0, .error "Invalid utilization format")
      | some util =>
        if util > 100 then (100, .imputed "Utilization capped at 100")
        else (util, .clean)

/-- `DataNormalizer.impute_missing_energy`: gpu_hours x 0.4 kW x utilization. -/
def impute_missing_energy (gpu_hours utilization : ℚ) : ℚ :=
  if gpu_hours ≤ 0 ∨ utilization ≤ 0 then 0
  else gpu_hours * default_gpu_power * (utilization / 100)

/-- `DataNormalizer.calculate_total_energy`. -/
def calculate_total_energy (it_kwh pue : ℚ) : ℚ := it_kwh * pue

/-- `DataNormalizer.calculate_emissions`. -/
def calculate_emissions (total_kwh intensity_g_per_kwh : ℚ) : ℚ :=
  total_kwh * intensity_g_per_kwh / 1000000

/-- Is a log entry an `imputed` note? -/
def LogEntry.isImputed : LogEntry → Bool
  | .imputed _ => true
  | _ => false

/-- Is a log entry an `error` note? -/
def LogEntry.isError : LogEntry → Bool
  | .error _ => true
  | _ => false

/-- The values of the imputation-log dict, in insertion order. -/
def ImputationLog.entries (log : ImputationLog) : List LogEntry :=
  [log.gpu_hours, log.energy, log.tokens, log.api_calls, log.pue,
   log.utilization, log.energy_imputation]

/-- `DataNormalizer.calculate_data_quality`: 100 minus 10 per imputed note and
20 per error note, floored at 0. -/
def calculate_data_quality (log : ImputationLog) : ℚ :=
  max 0 (100 - ((log.entries.filter LogEntry.isImputed).length : ℚ) * imputation_penalty
            - ((log.entries.filter LogEntry.isError).length : ℚ) * (imputation_penalty * 2))

/-- `DataNormalizer.normalize_record`: normalize every field, impute missing
energy from GPU hours, compute totals and emissions, score quality, and flag
critical errors.  A `ValueError` escaping `normalize_energy` or
`normalize_tokens` lands in the `except` branch: success false, no data,
quality 0. -/
def normalize_record (raw : RawRecord) (grid_intensity : ℚ) : NormalizationResult :=
  let gpuR := normalize_gpu_hours raw.gpu_hours_raw
  match normalize_energy raw.energy_raw with
  | none =>
    { success := false, data := none, quality_score := 0,
      imputation_log := { emptyImputationLog with gpu_hours := gpuR.2 },
      errors := ["Normalization error"] }
  | some energyR =>
    match normalize_tokens raw.tokens_raw with
    | none =>
      { success := false, data := none, quality_score := 0,
        imputation_log := { emptyImputationLog with gpu_hours := gpuR.2, energy := energyR.2 },
        errors := ["Normalization error"] }
    | some tokensR =>
      let apiR := normalize_api_calls raw.api_calls_raw
      let pueR := normalize_pue raw.pue_raw
      let utilR := normalize_utilization raw.utilization_raw
      let gpu_hours := gpuR.1
      let utilization := utilR.1
      let pue := pueR.1
      let itR : ℚ × LogEntry :=
        if energyR.1 ≤ 0 then
          (impute_missing_energy gpu_hours utilization, .imputed "Energy imputed from GPU hours")
        else (energyR.1, .clean)
      let it_kwh := itR.1
      let total_kwh := calculate_total_energy it_kwh pue
      let tco2e := calculate_emissions total_kwh grid_intensity
      let log : ImputationLog :=
        ⟨gpuR.2, energyR.2, tokensR.2, apiR.2, pueR.2, utilR.2, itR.2⟩
      let dq := calculate_data_quality log
      let d : NormalizedData :=
        { company := raw.company, month := raw.month, region := raw.region,
          gpu_hours := gpu_hours, utilization := utilization, it_kwh := it_kwh,
          total_kwh := total_kwh, intensity_g_per_kwh := grid_intensity,
          tco2e := tco2e, tokens := tokensR.1, api_calls := apiR.1,
          pue_used := pue, data_quality := dq }
      { success := !decide (gpu_hours ≤ 0) && !decide (total_kwh ≤ 0)
                     && !decide (utilization > 100),
        data := some d, quality_score := dq, imputation_log := log,
        errors := (if gpu_hours ≤ 0 then ["Invalid or missing GPU hours"] else [])
               ++ (if total_kwh ≤ 0 then ["Invalid energy consumption"] else [])
               ++ (if utilization > 100 then ["Utilization exceeds 100%"] else []) }

/-! ## Planner (`DataPlanner`) -/

/-- One detected data-quality issue. -/
structure Issue where
  type : String
  field : String
  value : String
  severity : String
  description : String
deriving DecidableEq, Repr

/-- Result of `DataPlanner.detect_issues`. -/
structure DetectionResult where
  issues : List Issue
  severity : String
  recommended_actions : List String
  confidence : ℚ
deriving DecidableEq, Repr

/-- One entry of `DataPlanner.issue_patterns`. -/
structure IssueConfig where
  issue_type : String
  pattern : String
  field : String
  severity : String
  action : String
deriving DecidableEq, Repr

/-- `DataPlanner.issue_patterns`, in dict insertion order. -/
def issue_patterns : List IssueConfig :=
  [⟨"missing_energy", "^\\s*$", "energy_raw", "high", "impute_from_gpu_hours"⟩,
   ⟨"missing_pue", "^\\s*$", "pue_raw", "medium", "use_default_pue"⟩,
   ⟨"missing_tokens", "^\\s*$", "tokens_raw", "medium", "mark_na"⟩,
   ⟨"unknown_region", "UNKNOWN", "region", "medium", "use_market_average"⟩,
   ⟨"invalid_utilization", "^$|^[^0-9]*$|^[0-9]+$", "utilization_raw", "high", "validate_and_fix"⟩,
   ⟨"mixed_units", "(MWh|kWh)", "energy_raw", "low", "normalize_units"⟩,
   ⟨"fuzzy_tokens", "[0-9.]+[kKmMbB]", "tokens_raw", "low", "parse_tokens"⟩]

/-- `raw_record.get(config["field"], "")`. -/
def getField (r : RawRecord) : String → String
  | "energy_raw" => r.energy_raw
  | "pue_raw" => r.pue_raw
  | "tokens_raw" => r.tokens_raw
  | "utilization_raw" => r.utilization_raw
  | "region" => r.region
  | _ => ""

/-- `DataPlanner._is_valid_utilization`: non-empty, `%` signs removed, the
whole string parses as a float in `[0, 100]`. -/
def is_valid_utilization (value : String) : Bool :=
  if isBlank value then false
  else
    match pyFloat? ⟨(stripList value.toList).filter (· != '%')⟩ with
    | some util => decide (0 ≤ util) && decide (util ≤ 100)
    | none => false

/-- Does the string match `re.search(r'[0-9.]+[kKmMbB]', s)` — some `[0-9.]`
character immediately followed by a `k`/`m`/`b` letter? -/
def hasFuzzyTokenPattern : List Char → Bool
  | c1 :: c2 :: rest =>
    (isDigitDot c1 && (c2 == 'k' || c2 == 'K' || c2 == 'm' || c2 == 'M'
                        || c2 == 'b' || c2 == 'B'))
      || hasFuzzyTokenPattern (c2 :: rest)
  | _ => false

/-- The `if/elif` chain in the body of `DataPlanner.detect_issues`, for one
pattern-table entry.  Note: the branch testing the field against
`["energy_raw", "pue_raw", "tokens_raw"]` comes before the dedicated
mixed-units and fuzzy-tokens branches, so for the `mixed_units` and
`fuzzy_tokens` configs (whose fields are `energy_raw` / `tokens_raw`) it is
the emptiness test that runs and the two last branches are unreachable. -/
def detect_step (r : RawRecord) (cfg : IssueConfig) : Option Issue :=
  let v := getField r cfg.field
  if cfg.field == "region" && v == "UNKNOWN" then
    some ⟨cfg.issue_type, cfg.field, v, cfg.severity, "Unknown region"⟩
  else if cfg.field == "energy_raw" || cfg.field == "pue_raw" || cfg.field == "tokens_raw" then
    if isBlank v then
      some ⟨cfg.issue_type, cfg.field, v, cfg.severity, "Missing field"⟩
    else none
  else if cfg.field == "utilization_raw" then
    if !is_valid_utilization v then
      some ⟨cfg.issue_type, cfg.field, v, cfg.severity, "Invalid utilization format"⟩
    else none
  else if cfg.field == "energy_raw" && !(v == "") then
    if containsSub "MWh".toList v.toList && containsSub "kWh".toList v.toList then
      some ⟨cfg.issue_type, cfg.field, v, cfg.severity, "Mixed energy units detected"⟩
    else none
  else if cfg.field == "tokens_raw" && !(v == "") then
    if hasFuzzyTokenPattern v.toList then
      some ⟨cfg.issue_type, cfg.field, v, cfg.severity, "Fuzzy token format"⟩
    else none
  else none

/-- `DataPlanner._update_severity` (critical > high > medium > low; the source
severities are always one of the four levels). -/
def severity_level (s : String) : ℕ :=
  if s == "medium" then 1 else if s == "high" then 2
  else if s == "critical" then 3 else 0

/-- Keep the larger of two severity levels. -/
def update_severity (cur new : String) : String :=
  if severity_level new > severity_level cur then new else cur

/-- Severity component of `DataPlanner._calculate_confidence`. -/
def severity_penalty (s : String) : ℚ :=
  if s == "medium" then 1 / 10 else if s == "high" then 1 / 5
  else if s == "critical" then 3 / 10 else 0

/-- `DataPlanner._calculate_confidence`: 0.9 minus an issue-count penalty
capped at 0.5 and a severity penalty, floored at 0.1. -/
def calculate_confidence (issues : List Issue) (sev : String) : ℚ :=
  max (1 / 10) (9 / 10 - min ((issues.length : ℚ) * (1 / 10)) (1 / 2) - severity_penalty sev)

/-- `DataPlanner.detect_issues`: run every pattern-table entry through the
branch chain, accumulate issues and recommended actions in table order, track
the maximum severity, and score confidence.  Python wraps the actions in
`list(set(...))` whose order is unspecified; deduplication keeping first
occurrences is used here. -/
def detect_issues (r : RawRecord) : DetectionResult :=
  let hits := issue_patterns.filterMap (fun cfg => (detect_step r cfg).map (fun i => (i, cfg.action)))
  let issues := hits.map (·.1)
  let max_severity := issues.foldl (fun cur i => update_severity cur i.severity) "low"
  { issues := issues,
    severity := max_severity,
    recommended_actions := (hits.map (·.2)).eraseDups,
    confidence := calculate_confidence issues max_severity }

/-- One planned remediation action. -/
structure StrategyAction where
  action : String
  field : String
  reason : String
deriving DecidableEq, Repr

/-- Result of `DataPlanner.plan_normalization_strategy`. -/
structure Strategy where
  priority_actions : List StrategyAction
  fallback_actions : List StrategyAction
  validation_rules : List String
  expected_quality : ℚ
deriving DecidableEq, Repr

/-- `DataPlanner._get_action_for_issue`. -/
def get_action_for_issue (t : String) : String :=
  if t == "missing_energy" then "impute_from_gpu_hours"
  else if t == "missing_pue" then "use_default_pue"
  else if t == "missing_tokens" then "mark_na"
  else if t == "unknown_region" then "use_market_average"
  else if t == "invalid_utilization" then "validate_and_fix"
  else if t == "mixed_units" then "normalize_units"
  else if t == "fuzzy_tokens" then "parse_tokens"
  else "manual_review"

/-- `DataPlanner.plan_normalization_strategy`: critical/high issues become
priority actions, the rest fallback actions; fixed validation rules;
expected quality 100 minus 10 per issue, floored at 0. -/
def plan_normalization_strategy (d : DetectionResult) : Strategy :=
  { priority_actions :=
      (d.issues.filter (fun i => i.severity == "critical" || i.severity == "high")).map
        (fun i => ⟨get_action_for_issue i.type, i.field, i.description⟩),
    fallback_actions :=
      (d.issues.filter (fun i => !(i.severity == "critical" || i.severity == "high"))).map
        (fun i => ⟨get_action_for_issue i.type, i.field, i.description⟩),
    validation_rules :=
      ["utilization_must_be_0_to_100", "energy_must_be_positive",
       "pue_must_be_1_to_3", "gpu_hours_must_be_positive"],
    expected_quality := max 0 (100 - 10 * (d.issues.length : ℚ)) }

/-! ## Executor (`DataExecutor`) -/

/-- Result of `DataExecutor.execute_normalization` (the structured execution
log, which only records informational annotations, is elided). -/
structure ExecutionResult where
  success : Bool
  normalized_data : Option NormalizedData
  errors : List String
deriving DecidableEq, Repr

/-- `DataExecutor.execute_normalization`: run `normalize_record`; on
normalization success propagate its data and report success, otherwise
propagate its errors.  The strategy's actions are only logged (they change no
computed value), and `success` is set to true solely on the normalization
success path — an exception inside the `try` would leave it false. -/
def execute_normalization (raw : RawRecord) (grid_intensity : ℚ)
    (_strategy : Strategy) : ExecutionResult :=
  let nr := normalize_record raw grid_intensity
  if nr.success then
    { success := true, normalized_data := nr.data, errors := [] }
  else
    { success := false, normalized_data := none, errors := nr.errors }

/-! ## Critic (`DataCritic`) -/

/-- Retry ceiling of `DataCritic` (and of the agent loop). -/
def max_retries : ℕ := 3

/-- Data-quality threshold of `DataCritic`. -/
def quality_threshold : ℚ := 70

/-- One issue found by the Critic. -/
structure CriticIssue where
  type : String
  severity : String
  description : String
deriving DecidableEq, Repr

/-- Result of `DataCritic.critique_results`. -/
structure CritiqueResult where
  passed : Bool
  issues : List CriticIssue
  retry_needed : Bool
  retry_reason : Option String
  quality_score : ℚ
  recommendations : List String
deriving DecidableEq, Repr

/-- `DataCritic._check_critical_issues`. -/
def check_critical_issues (d : NormalizedData) : List CriticIssue :=
  (if d.total_kwh ≤ 0 then
    [⟨"negative_energy", "critical", "Total energy consumption is zero or negative"⟩] else [])
  ++ (if d.utilization > 100 ∨ d.utilization < 0 then
    [⟨"invalid_utilization", "critical", "Utilization percentage is invalid"⟩] else [])
  ++ (if d.gpu_hours ≤ 0 then
    [⟨"missing_critical_data", "critical", "GPU hours is missing or invalid"⟩] else [])
  ++ (if d.tco2e < 0 then
    [⟨"calculation_error", "critical", "CO2 emissions calculation error"⟩] else [])

/-- `DataCritic._check_quality_issues`.  The normalized-data dict carries no
`imputation_log` key, so the excessive-imputations check always counts zero
imputations and never fires. -/
def check_quality_issues (d : NormalizedData) : List CriticIssue :=
  if d.data_quality < quality_threshold then
    [⟨"low_quality", "high", "Data quality score below threshold"⟩] else []

/-- `DataCritic._check_anomalies`. -/
def check_anomalies (d : NormalizedData) : List CriticIssue :=
  (if d.utilization > 95 then
    [⟨"high_utilization", "low", "Unusually high utilization"⟩] else [])
  ++ (if d.pue_used > 2 then
    [⟨"high_pue", "medium", "Unusually high PUE"⟩] else [])
  ++ (if d.intensity_g_per_kwh > 800 then
    [⟨"high_intensity", "low", "High grid carbon intensity"⟩] else [])

/-- All Critic issues of a normalized record, in check order. -/
def critic_issues_of (d : NormalizedData) : List CriticIssue :=
  check_critical_issues d ++ check_quality_issues d ++ check_anomalies d

/-- `DataCritic._should_retry`: no retry at or past the ceiling; else retry on
any critical issue, low quality, or more than two high-severity issues. -/
def should_retry (issues : List CriticIssue) (quality_score : ℚ) (retry_count : ℕ) : Bool :=
  if retry_count ≥ max_retries then false
  else if issues.any (fun i => i.severity == "critical") then true
  else if quality_score < quality_threshold then true
  else if (issues.filter (fun i => i.severity == "high")).length > 2 then true
  else false

/-- `DataCritic._get_retry_reason` (representative constant messages). -/
def get_retry_reason (issues : List CriticIssue) (quality_score : ℚ) : String :=
  if issues.any (fun i => i.severity == "critical") then "Critical issues"
  else if quality_score < quality_threshold then "Quality score below threshold"
  else if (issues.filter (fun i => i.severity == "high")).length > 0 then "High severity issues"
  else "Unknown retry reason"

/-- `DataCritic._generate_recommendations`. -/
def recommendation_for (t : String) : Option String :=
  if t == "negative_energy" then some "Check GPU hours and utilization values"
  else if t == "invalid_utilization" then some "Validate utilization percentage format"
  else if t == "missing_critical_data" then some "Ensure GPU hours are properly parsed"
  else if t == "low_quality" then some "Review imputation strategy"
  else if t == "excessive_imputations" then some "Consider manual data review"
  else if t == "high_pue" then some "Verify PUE value accuracy"
  else none

/-- `DataCritic.critique_results`: unconditional retry on execution failure or
missing data (the ceiling is the caller's job there); otherwise gather
critical/quality/anomaly issues and apply `_should_retry`. -/
def critique_results (ex : ExecutionResult) (nd : Option NormalizedData)
    (retry_count : ℕ) : CritiqueResult :=
  if ex.success = false then
    { passed := false,
      issues := [⟨"execution_failure", "critical", "Execution phase failed"⟩],
      retry_needed := true, retry_reason := some "Execution failure",
      quality_score := 0, recommendations := [] }
  else
    match nd with
    | none =>
      { passed := false,
        issues := [⟨"missing_normalized_data", "critical", "No normalized data produced"⟩],
        retry_needed := true, retry_reason := some "Missing normalized data",
        quality_score := 0, recommendations := [] }
    | some d =>
      let issues := critic_issues_of d
      let rn := should_retry issues d.data_quality retry_count
      { passed := !rn && decide (d.data_quality ≥ quality_threshold),
        issues := issues,
        retry_needed := rn,
        retry_reason := if rn then some (get_retry_reason issues d.data_quality) else none,
        quality_score := d.data_quality,
        recommendations := issues.filterMap (fun i => recommendation_for i.type) }

/-! ## Agent loop (`CarbonRankerAgent._process_record`) -/

/-- One pass of Planner then Executor over a raw record. -/
def executeAttempt (raw : RawRecord) (grid_intensity : ℚ) : ExecutionResult :=
  execute_normalization raw grid_intensity (plan_normalization_strategy (detect_issues raw))

/-- Terminal state of `_process_record` for one raw record. -/
structure ProcessOutcome where
  attempts : ℕ
  processed : Bool
  saved : Option NormalizedData
  fuel_exhausted : Bool
deriving DecidableEq, Repr

/-- The `while retry_count <= max_retries` loop of `_process_record`, with
explicit fuel.  Failed execution increments the retry count and continues;
successful execution is critiqued, retried below the ceiling when the Critic
asks, and otherwise saved (marking the record processed); leaving the loop
with the count above the ceiling also marks the record processed.  The
Python loop would spin without incrementing the count if a successful
execution carried no data; that branch consumes fuel here (it is unreachable:
a successful execution always carries data). -/
def processLoop (raw : RawRecord) (grid_intensity : ℚ) :
    ℕ → ℕ → ℕ → ProcessOutcome
  | 0, _, attempts => ⟨attempts, false, none, true⟩
  | fuel + 1, retry_count, attempts =>
    if retry_count ≤ max_retries then
      let ex := executeAttempt raw grid_intensity
      if ex.success then
        let cr := critique_results ex ex.normalized_data retry_count
        if cr.retry_needed ∧ retry_count < max_retries then
          processLoop raw grid_intensity fuel (retry_count + 1) (attempts + 1)
        else
          match ex.normalized_data with
          | some d => ⟨attempts + 1, true, some d, false⟩
          | none => processLoop raw grid_intensity fuel retry_count (attempts + 1)
      else
        processLoop raw grid_intensity fuel (retry_count + 1) (attempts + 1)
    else
      ⟨attempts, true, none, false⟩

/-- `_process_record`: the loop started at retry count 0 with enough fuel for
every reachable path (counts 0 through 4). -/
def process_record (raw : RawRecord) (grid_intensity : ℚ) : ProcessOutcome :=
  processLoop raw grid_intensity (max_retries + 2) 0 0

/-! ## Aggregator / Ranker (`CarbonRankerAgent`) -/

/-- A monthly per-vendor rollup row; the three derived intensities are `none`
when their denominator was not positive (SQL NULL). -/
structure MonthlyCompanyRollup where
  company : String
  month : String
  total_kwh : ℚ
  tco2e : ℚ
  g_per_1k_tokens : Option ℚ
  g_per_call : Option ℚ
  tokens_per_tco2e : Option ℚ
  utilization_avg : ℚ
  pue_used : ℚ
  data_quality : ℚ
  total_tokens : ℚ
  total_api_calls : ℚ
deriving DecidableEq, Repr

/-- Python truthiness of an optional float column (`None` and `0.0` are
falsy). -/
def truthyQ : Option ℚ → Bool
  | none => false
  | some x => !(x == 0)

/-- Maximum of a list of rationals, `none` on the empty list
(`max(values) if values else ...`). -/
def listMax? (l : List ℚ) : Option ℚ :=
  l.foldl (fun acc x =>
    match acc with
    | none => some x
    | some m => some (max m x)) none

/-- `CarbonRankerAgent._calculate_green_score`: the tCO2e and intensity maxima
are taken over ALL rollups in the store (`self.db.query(...).all()`, every
month), defaulting to 1 on an empty list; scores are 1 minus the ratio to the
maximum (0 when undefined or when the rollup's own intensity is falsy), the
utilization score is the average over the theoretical maximum 100; the
40/40/20 composite is clamped to `[0, 100]`. -/
def calculate_green_score (allRollups : List MonthlyCompanyRollup)
    (rollup : MonthlyCompanyRollup) : ℚ :=
  let tco2e_values := allRollups.map (·.tco2e)
  let intensity_values := allRollups.filterMap (·.g_per_1k_tokens)
  let max_tco2e := (listMax? tco2e_values).getD 1
  let max_intensity := (listMax? intensity_values).getD 1
  let tco2e_score := if max_tco2e > 0 then 1 - rollup.tco2e / max_tco2e else 0
  let intensity_score :=
    match rollup.g_per_1k_tokens with
    | some g => if g ≠ 0 ∧ max_intensity > 0 then 1 - g / max_intensity else 0
    | none => 0
  let utilization_score := rollup.utilization_avg / 100
  let green_score :=
    (2 / 5 * tco2e_score + 2 / 5 * intensity_score + 1 / 5 * utilization_score) * 100
  min 100 (max 0 green_score)

/-- Lexicographic (code-point) strict comparison of character lists, the
order SQL uses on the month strings. -/
def lexLt : List Char → List Char → Bool
  | [], [] => false
  | [], _ :: _ => true
  | _ :: _, [] => false
  | a :: as, b :: bs =>
    decide (a.toNat < b.toNat) || (a == b && lexLt as bs)

/-- Lexicographic strict comparison of strings. -/
def strLt (a b : String) : Bool := lexLt a.toList b.toList

/-- The latest (lexicographically greatest) month among the rollups
(`order_by(month.desc()).first()`). -/
def latest_month? (rs : List MonthlyCompanyRollup) : Option String :=
  rs.foldl (fun acc r =>
    match acc with
    | none => some r.month
    | some m => some (if strLt m r.month then r.month else m)) none

/-- One `Rankings` row (display copies of further rollup metrics elided). -/
structure Ranking where
  company : String
  month : String
  green_score : ℚ
  overall_rank : ℕ
  tco2e_rank : ℕ
  intensity_rank : ℕ
  efficiency_rank : ℕ
  utilization_rank : ℕ
deriving DecidableEq, Repr

/-- Stable descending insertion by score: a new element goes before the first
strictly smaller score, so elements with equal scores keep their original
relative order (Python's `sort` is stable). -/
def insertDescByScore (x : MonthlyCompanyRollup × ℚ) :
    List (MonthlyCompanyRollup × ℚ) → List (MonthlyCompanyRollup × ℚ)
  | [] => [x]
  | y :: ys => if x.2 ≥ y.2 then x :: y :: ys else y :: insertDescByScore x ys

/-- Stable sort by green score, higher first
(`rankings_data.sort(key=..., reverse=True)`). -/
def sortDescByScore (l : List (MonthlyCompanyRollup × ℚ)) :
    List (MonthlyCompanyRollup × ℚ) :=
  l.foldr insertDescByScore []

/-- The four counting-based sub-ranks of one rollup against the ranked list:
one plus the number of rollups strictly better on the metric, skipping
comparisons where either intensity/efficiency value is falsy. -/
def subRanks (ranked : List (MonthlyCompanyRollup × ℚ))
    (rollup : MonthlyCompanyRollup) : ℕ × ℕ × ℕ × ℕ :=
  ((ranked.filter (fun p => p.1.tco2e < rollup.tco2e)).length + 1,
   (ranked.filter (fun p =>
      truthyQ p.1.g_per_1k_tokens && truthyQ rollup.g_per_1k_tokens
        && decide ((p.1.g_per_1k_tokens.getD 0) < rollup.g_per_1k_tokens.getD 0))).length + 1,
   (ranked.filter (fun p =>
      truthyQ p.1.tokens_per_tco2e && truthyQ rollup.tokens_per_tco2e
        && decide ((p.1.tokens_per_tco2e.getD 0) > rollup.tokens_per_tco2e.getD 0))).length + 1,
   (ranked.filter (fun p => p.1.utilization_avg > rollup.utilization_avg)).length + 1)

/-- `CarbonRankerAgent._generate_rankings`: keep only the latest month's
rollups, score each one (with maxima over ALL rollups), sort by score
descending, and assign 1-based positional overall ranks plus the four
counting sub-ranks. -/
def generate_rankings (allRollups : List MonthlyCompanyRollup) : List Ranking :=
  match latest_month? allRollups with
  | none => []
  | some lm =>
    let rollups := allRollups.filter (fun r => r.month == lm)
    let scored := rollups.map (fun r => (r, calculate_green_score allRollups r))
    let ranked := sortDescByScore scored
    ranked.enum.map (fun p =>
      let ranks := subRanks ranked p.2.1
      { company := p.2.1.company, month := p.2.1.month,
        green_score := p.2.2, overall_rank := p.1 + 1,
        tco2e_rank := ranks.1, intensity_rank := ranks.2.1,
        efficiency_rank := ranks.2.2.1, utilization_rank := ranks.2.2.2 })

/-! ## Concrete records used by the theorems below -/

/-- Record of the spec's imputation example: gpu_hours 1000, utilization 80,
missing energy, missing PUE. -/
def imputationExampleRaw : RawRecord :=
  ⟨"VendorA", "2024-01", "US", "1000", "", "5M", "1000", "", "80"⟩

/-- The normalized data produced for `imputationExampleRaw` at grid
intensity 350 (three imputations: energy, PUE, energy-from-GPU-hours). -/
def imputationExampleData : NormalizedData :=
  { company := "VendorA", month := "2024-01", region := "US",
    gpu_hours := 1000, utilization := 80, it_kwh := 320, total_kwh := 416,
    intensity_g_per_kwh := 350, tco2e := 91 / 625, tokens := 5000000,
    api_calls := 1000, pue_used := 13 / 10, data_quality := 70 }

/-- A clean record whose emissions turn negative under a negative grid
intensity: execution succeeds while the Critic reports a critical
`calculation_error` on every attempt. -/
def criticalLoopRaw : RawRecord :=
  ⟨"VendorX", "2024-01", "US", "100", "50 kWh", "1M", "10", "1.5", "50%"⟩

/-- A record with a blank GPU-hours field: normalization completes without an
exception but reports failure. -/
def missingGpuRaw : RawRecord :=
  ⟨"VendorY", "2024-01", "US", "", "50 kWh", "1M", "10", "1.5", "50%"⟩

/-- A record normalizing successfully with data quality 50 (five imputed
fields), exercising the fact that low quality does not fail execution. -/
def lowQualityRaw : RawRecord :=
  ⟨"VendorZ", "2024-01", "US", "1000", "", "", "", "", "80"⟩

/-- A record whose energy field contains both the `MWh` and `kWh`
substrings. -/
def mixedUnitsRaw : RawRecord :=
  ⟨"VendorM", "2024-01", "EU", "10", "1.2 MWh (1200 kWh)", "1000", "5", "1.4", "50%"⟩

/-- A record triggering all seven pattern-table issues at once (blank energy,
PUE and tokens, unknown region, invalid utilization). -/
def sevenIssuesRaw : RawRecord :=
  ⟨"VendorN", "2024-01", "UNKNOWN", "100", "", "", "5", "", "abc"⟩

/-- Rollup with the given company, month, tCO2e and average utilization and no
token or API-call data (all derived intensities undefined). -/
def mkPlainRollup (c m : String) (t u : ℚ) : MonthlyCompanyRollup :=
  ⟨c, m, 1, t, none, none, none, u, 12 / 10, 90, 0, 0⟩

/-- Vendor A of the spec's ranking example: tCO2e 0.5, utilization 80, in the
latest month. -/
def rollupA : MonthlyCompanyRollup := mkPlainRollup "A" "2024-02" (1 / 2) 80

/-- Vendor B of the spec's ranking example: tCO2e 1.0, utilization 60, in the
latest month. -/
def rollupB : MonthlyCompanyRollup := mkPlainRollup "B" "2024-02" 1 60

/-- An extra vendor in an OLDER month with tCO2e 2.0, present only in the
rollup store. -/
def rollupOldC : MonthlyCompanyRollup := mkPlainRollup "C" "2024-01" 2 50

/-! ## Spec-side comparison definitions -/

/-- Modelled from the spec's words for claim C9: confidence =
`max(0.1, 0.9 - 0.1 x issue_count - severity_penalty)`, with no cap on the
issue-count penalty. -/
def spec_confidence_formula (issue_count : ℕ) (sev : String) : ℚ :=
  max (1 / 10) (9 / 10 - (issue_count : ℚ) * (1 / 10) - severity_penalty sev)

/-- Modelled from the spec's words for claim C3: the green score with the
tCO2e and intensity maxima restricted to the most recent month's rollups
only. -/
def spec_green_score_latest_only (allRollups : List MonthlyCompanyRollup)
    (rollup : MonthlyCompanyRollup) : ℚ :=
  match latest_month? allRollups with
  | none => calculate_green_score allRollups rollup
  | some lm => calculate_green_score (allRollups.filter (fun r => r.month == lm)) rollup

/-! ## Claim theorems -/

/-- Claim C7: `normalize_tokens` parses the fuzzy suffixes so that "5M" is
5,000,000, "2.5B" is 2,500,000,000, "750k" is 750,000 and "1200" is 1200. -/
theorem normalize_tokens_fuzzy_suffixes :
    normalize_tokens "5M" = some (5000000, LogEntry.clean)
    ∧ normalize_tokens "2.5B" = some (2500000000, LogEntry.clean)
    ∧ normalize_tokens "750k" = some (750000, LogEntry.clean)
    ∧ normalize_tokens "1200" = some (1200, LogEntry.clean) := by
  refine ⟨?_, ?_, ?_, ?_⟩ <;> decide

/-- Claim C8: for gpu_hours 1000, utilization 80, missing energy, default PUE
1.3 and grid intensity 350 g/kWh, `normalize_record` imputes it_kwh = 320,
computes total_kwh = 416 and tco2e = 0.1456. -/
theorem normalize_record_imputation_example :
    (normalize_record imputationExampleRaw 350).data.map
        (fun d => (d.it_kwh, d.total_kwh, d.tco2e))
      = some (320, 416, 1456 / 10000) := by
  decide

/-- Claim C5 (code bug): for the record whose energy field contains both the
`MWh` and `kWh` substrings, `detect_issues` emits NO `mixed_units` issue —
the missing-field branch of the `elif` chain captures every `energy_raw`
config, leaving the dedicated mixed-units branch unreachable. -/
theorem mixed_units_issue_never_emitted :
    containsSub "MWh".toList mixedUnitsRaw.energy_raw.toList = true
    ∧ containsSub "kWh".toList mixedUnitsRaw.energy_raw.toList = true
    ∧ (detect_issues mixedUnitsRaw).issues.filter (fun i => i.type == "mixed_units") = []
    ∧ (detect_issues mixedUnitsRaw).issues = [] := by
  refine ⟨?_, ?_, ?_, ?_⟩ <;> decide

/-! ## Helper lemmas -/

/-- A value extracted by `parseDigitDotToken` is never negative: the token
classes `[\d.]` contain no minus sign. -/
theorem parseDigitDotToken_nonneg {l : List Char} {v : ℚ}
    (h : parseDigitDotToken l = some v) : 0 ≤ v := by
  unfold parseDigitDotToken at h
  by_cases h1 : (l.filter (· == '.')).length = 0
  · rw [if_pos h1] at h
    by_cases h2 : l = []
    · rw [if_pos h2] at h; exact absurd h (by simp)
    · rw [if_neg h2] at h
      obtain rfl := Option.some.inj h
      positivity
  · rw [if_neg h1] at h
    by_cases h3 : (l.filter (· == '.')).length = 1
    · rw [if_pos h3] at h
      by_cases h4 : l.takeWhile (· != '.') = [] ∧ (l.dropWhile (· != '.')).drop 1 = []
      · rw [if_pos h4] at h; exact absurd h (by simp)
      · rw [if_neg h4] at h
        obtain rfl := Option.some.inj h
        positivity
    · rw [if_neg h3] at h; exact absurd h (by simp)

/-- The severity penalty of the Planner's confidence formula is never
negative. -/
theorem severity_penalty_nonneg (s : String) : 0 ≤ severity_penalty s := by
  unfold severity_penalty
  split_ifs <;> norm_num

/-- Claim C9 (counterexample): on the record that triggers all seven
pattern-table issues at once, the detector's confidence is 0.2 — the
issue-count penalty is capped at 0.5 — while the spec's uncapped formula
gives 0.1. -/
theorem detect_confidence_formula_cex :
    (detect_issues sevenIssuesRaw).issues.length = 7
    ∧ (detect_issues sevenIssuesRaw).severity = "high"
    ∧ (detect_issues sevenIssuesRaw).confidence = 1 / 5
    ∧ spec_confidence_formula (detect_issues sevenIssuesRaw).issues.length
        (detect_issues sevenIssuesRaw).severity = 1 / 10
    ∧ (1 / 5 : ℚ) ≠ 1 / 10 := by
  refine ⟨?_, ?_, ?_, ?_, ?_⟩ <;> decide

/-- Claim C9 (amended): the detector's confidence equals
`max(0.1, 0.9 - min(0.1 x issue_count, 0.5) - severity_penalty)` — the
issue-count penalty is capped at 0.5 — and therefore always lies in
`[0.1, 0.9]`. -/
theorem detect_confidence_formula_amended (r : RawRecord) :
    (detect_issues r).confidence
      = max (1 / 10) (9 / 10 - min (((detect_issues r).issues.length : ℚ) * (1 / 10)) (1 / 2)
          - severity_penalty (detect_issues r).severity)
    ∧ 1 / 10 ≤ (detect_issues r).confidence
    ∧ (detect_issues r).confidence ≤ 9 / 10 := by
  have hform : (detect_issues r).confidence
      = max (1 / 10) (9 / 10 - min (((detect_issues r).issues.length : ℚ) * (1 / 10)) (1 / 2)
          - severity_penalty (detect_issues r).severity) := rfl
  refine ⟨hform, ?_, ?_⟩
  · rw [hform]; exact le_max_left _ _
  · rw [hform]
    have h1 : (0 : ℚ) ≤ min (((detect_issues r).issues.length : ℚ) * (1 / 10)) (1 / 2) :=
      le_min (by positivity) (by norm_num)
    have h2 := severity_penalty_nonneg (detect_issues r).severity
    exact max_le (by norm_num) (by linarith)

/-- Claim C3 (counterexample): with an extra rollup in an OLDER month
(tCO2e 2.0), the code's green score for vendor A of the spec example becomes
46, not the 36 that a latest-month-only maximum would give: the maxima in
`_calculate_green_score` range over every rollup in the store. -/
theorem green_score_not_latest_month_only_cex :
    (generate_rankings [rollupA, rollupB, rollupOldC]).map
        (fun e => (e.company, e.green_score, e.overall_rank))
      = [("A", 46, 1), ("B", 32, 2)]
    ∧ calculate_green_score [rollupA, rollupB, rollupOldC] rollupA = 46
    ∧ spec_green_score_latest_only [rollupA, rollupB, rollupOldC] rollupA = 36
    ∧ (46 : ℚ) ≠ 36 := by
  refine ⟨?_, ?_, ?_, ?_⟩ <;> decide

/-- Claim C3 (amended): when the two vendors of the spec example are the only
rollups in the store, the scores are 36 and 12 and vendor A receives the
better (lower-numbered) overall rank. -/
theorem green_score_two_vendor_ranking_amended :
    calculate_green_score [rollupA, rollupB] rollupA = 36
    ∧ calculate_green_score [rollupA, rollupB] rollupB = 12
    ∧ (generate_rankings [rollupA, rollupB]).map
        (fun e => (e.company, e.green_score, e.overall_rank))
      = [("A", 36, 1), ("B", 12, 2)] := by
  refine ⟨?_, ?_, ?_⟩ <;> decide

/-- Claim C4 (counterexample): a record with a blank GPU-hours field completes
normalization without any exception (data is produced) yet execution reports
failure — failure is not limited to unhandled exceptions. -/
theorem execution_failure_without_exception_cex :
    (execute_normalization missingGpuRaw 400
        (plan_normalization_strategy (detect_issues missingGpuRaw))).success = false
    ∧ (normalize_record missingGpuRaw 400).data.isSome = true
    ∧ (normalize_record missingGpuRaw 400).errors = ["Invalid or missing GPU hours"] := by
  refine ⟨?_, ?_, ?_⟩ <;> decide

/-- Claim C4 (amended): execution reports failure exactly when normalization
does — an exception during field normalization (no data) or a normalized
record with gpu_hours at most 0, total_kwh at most 0, or utilization above
100; data quality plays no part, witnessed by a record of quality 50 (below
the 70 threshold) whose execution still succeeds. -/
theorem execution_failure_characterization_amended :
    (∀ (raw : RawRecord) (grid : ℚ) (strat : Strategy),
        (execute_normalization raw grid strat).success = (normalize_record raw grid).success
        ∧ (execute_normalization raw grid strat).normalized_data
            = (if (normalize_record raw grid).success then (normalize_record raw grid).data
               else none)
        ∧ (normalize_record raw grid).success
            = (match (normalize_record raw grid).data with
               | none => false
               | some d => !decide (d.gpu_hours ≤ 0) && !decide (d.total_kwh ≤ 0)
                             && !decide (d.utilization > 100)))
    ∧ (executeAttempt lowQualityRaw 350).success = true
    ∧ (normalize_record lowQualityRaw 350).data.map (fun d => d.data_quality) = some 50
    ∧ (50 : ℚ) < quality_threshold := by
  refine ⟨?_, by decide, by decide, by decide⟩
  intro raw grid strat
  refine ⟨?_, ?_, ?_⟩
  · unfold execute_normalization
    cases hs : (normalize_record raw grid).success <;> simp [hs]
  · unfold execute_normalization
    cases hs : (normalize_record raw grid).success <;> simp [hs]
  · unfold normalize_record
    cases he : normalize_energy raw.energy_raw with
    | none => simp
    | some ep =>
      cases ht : normalize_tokens raw.tokens_raw with
      | none => simp
      | some tp => simp

/-- Claim C1: every normalized record satisfies
`total_kwh = it_kwh x pue_used` and
`tco2e = total_kwh x grid_intensity / 1,000,000` exactly. -/
theorem normalized_energy_emissions_invariant (raw : RawRecord) (grid : ℚ)
    (d : NormalizedData) (h : (normalize_record raw grid).data = some d) :
    d.total_kwh = d.it_kwh * d.pue_used
    ∧ d.tco2e = d.total_kwh * d.intensity_g_per_kwh / 1000000 := by
  unfold normalize_record at h
  cases he : normalize_energy raw.energy_raw with
  | none => rw [he] at h; simp at h
  | some ep =>
    rw [he] at h
    cases ht : normalize_tokens raw.tokens_raw with
    | none => rw [ht] at h; simp at h
    | some tp =>
      rw [ht] at h
      simp only [Option.some.injEq] at h
      subst h
      exact ⟨rfl, rfl⟩

/-- Witness for claim C1 at the concrete imputation-example record. -/
theorem normalized_energy_emissions_invariant_witness :
    imputationExampleData.total_kwh
        = imputationExampleData.it_kwh * imputationExampleData.pue_used
    ∧ imputationExampleData.tco2e
        = imputationExampleData.total_kwh * imputationExampleData.intensity_g_per_kwh
            / 1000000 :=
  normalized_energy_emissions_invariant imputationExampleRaw 350 imputationExampleData
    (by decide)

/-! ## Utilization characterization (claim C6) -/

/-- The numeric token `normalize_utilization` extracts: first `[\d.]+` run of
the `%`-stripped input, parsed by `float`. -/
def utilization_extracted (s : String) : Option ℚ :=
  if isBlank s then none
  else
    match firstRunSplit isDigitDot ((stripList s.toList).filter (· != '%')) with
    | some p => parseDigitDotToken p.1
    | none => none

/-- The numeric value the validity test `_is_valid_utilization` sees: the
whole `%`-stripped input parsed by Python `float`. -/
def utilization_float_value (s : String) : Option ℚ :=
  if isBlank s then none
  else pyFloat? ⟨(stripList s.toList).filter (· != '%')⟩

/-- The utilization a record normalizes to is never negative. -/
theorem normalize_utilization_nonneg (s : String) : 0 ≤ (normalize_utilization s).1 := by
  by_cases hb : isBlank s = true
  · simp [normalize_utilization, hb]
  · simp only [normalize_utilization, hb, Bool.false_eq_true, if_false]
    cases hr : firstRunSplit isDigitDot ((stripList s.toList).filter (· != '%')) with
    | none => simp
    | some p =>
      cases hp : parseDigitDotToken p.1 with
      | none => simp [hp]
      | some u =>
        have hu := parseDigitDotToken_nonneg hp
        by_cases hc : u > 100
        · simp [hp, hc]
        · simpa [hp, hc] using hu

/-- The utilization a record normalizes to never exceeds 100. -/
theorem normalize_utilization_le_100 (s : String) : (normalize_utilization s).1 ≤ 100 := by
  by_cases hb : isBlank s = true
  · simp [normalize_utilization, hb]
  · simp only [normalize_utilization, hb, Bool.false_eq_true, if_false]
    cases hr : firstRunSplit isDigitDot ((stripList s.toList).filter (· != '%')) with
    | none => simp
    | some p =>
      cases hp : parseDigitDotToken p.1 with
      | none => simp [hp]
      | some u =>
        by_cases hc : u > 100
        · simp [hp, hc]
        · simpa [hp, hc] using le_of_not_lt hc

/-- Claim C6 (amended): for every utilization string whose extracted numeric
token parses to `v`, the normalizer returns exactly `v` with an empty note
when `v` is at most 100 and exactly 100 with an imputed note when `v`
exceeds 100; and for every input the returned utilization lies in
`[0, 100]`.  (The original claim quantified over all strings passing the
validity test, which uses full `float` parsing — scientific notation breaks
it, see the counterexample.) -/
theorem normalize_utilization_characterization (s : String) :
    (∀ v : ℚ, utilization_extracted s = some v → v ≤ 100 →
        normalize_utilization s = (v, LogEntry.clean))
    ∧ (∀ v : ℚ, utilization_extracted s = some v → 100 < v →
        normalize_utilization s = (100, LogEntry.imputed "Utilization capped at 100"))
    ∧ 0 ≤ (normalize_utilization s).1 ∧ (normalize_utilization s).1 ≤ 100 := by
  refine ⟨?_, ?_, normalize_utilization_nonneg s, normalize_utilization_le_100 s⟩
  · intro v hv hle
    unfold utilization_extracted at hv
    by_cases hb : isBlank s = true
    · rw [if_pos hb] at hv; exact absurd hv (by simp)
    · rw [if_neg hb] at hv
      simp only [normalize_utilization, hb, Bool.false_eq_true, if_false]
      cases hr : firstRunSplit isDigitDot ((stripList s.toList).filter (· != '%')) with
      | none => rw [hr] at hv; exact absurd hv (by simp)
      | some p =>
        rw [hr] at hv
        simp only at hv
        have hnc : ¬ v > 100 := not_lt.mpr hle
        simp [hv, hnc]
  · intro v hv hgt
    unfold utilization_extracted at hv
    by_cases hb : isBlank s = true
    · rw [if_pos hb] at hv; exact absurd hv (by simp)
    · rw [if_neg hb] at hv
      simp only [normalize_utilization, hb, Bool.false_eq_true, if_false]
      cases hr : firstRunSplit isDigitDot ((stripList s.toList).filter (· != '%')) with
      | none => rw [hr] at hv; exact absurd hv (by simp)
      | some p =>
        rw [hr] at hv
        simp only at hv
        simp [hv, hgt]

/-- Claim C6 (counterexample): the string `"1e2"` passes the validity test
(Python `float("1e2")` is 100, inside `[0, 100]`), yet `normalize_utilization`
returns 1, not 100 — the extraction regex `[\d.]+` stops before the
exponent. -/
theorem normalize_utilization_scientific_cex :
    is_valid_utilization "1e2" = true
    ∧ utilization_float_value "1e2" = some 100
    ∧ normalize_utilization "1e2" = (1, LogEntry.clean)
    ∧ (1 : ℚ) ≠ 100 := by
  refine ⟨?_, ?_, ?_, ?_⟩ <;> decide

/-- Witness for claim C6 (amended) at the inputs `"150%"` (capped) and
`"87.5%"` (passed through). -/
theorem normalize_utilization_characterization_witness :
    normalize_utilization "150%" = (100, LogEntry.imputed "Utilization capped at 100")
    ∧ normalize_utilization "87.5%" = (175 / 2, LogEntry.clean) :=
  ⟨(normalize_utilization_characterization "150%").2.1 150 (by decide) (by decide),
   (normalize_utilization_characterization "87.5%").1 (175 / 2) (by decide) (by decide)⟩

/-! ## Non-negativity of the field normalizers (claim C10) -/

/-- GPU hours never normalize to a negative value. -/
theorem normalize_gpu_hours_nonneg (s : String) : 0 ≤ (normalize_gpu_hours s).1 := by
  by_cases hb : isBlank s = true
  · simp [normalize_gpu_hours, hb]
  · simp only [normalize_gpu_hours, hb, Bool.false_eq_true, if_false]
    cases hr : firstRunSplit isDigitDot (removeWords gpu_hour_words (stripList s.toList)) with
    | none => simp
    | some p =>
      cases hp : parseDigitDotToken p.1 with
      | none => simp [hp]
      | some v => simpa [hp] using parseDigitDotToken_nonneg hp

/-- Energy never normalizes to a negative value (when no exception). -/
theorem normalize_energy_nonneg (s : String) (p : ℚ × LogEntry)
    (h : normalize_energy s = some p) : 0 ≤ p.1 := by
  simp only [normalize_energy] at h
  split_ifs at h with hb hm hk
  · simp only [Option.some.injEq] at h; subst h; norm_num
  all_goals
    cases hfr : firstRunSplit isDigitDot (stripList s.toList) with
    | none =>
      rw [hfr] at h
      simp only at h
      simp only [Option.some.injEq] at h
      subst h
      norm_num
    | some q =>
      rw [hfr] at h
      simp only at h
      cases hpt : parseDigitDotToken q.1 with
      | none => rw [hpt] at h; exact absurd h (by simp)
      | some v =>
        rw [hpt] at h
        simp only [Option.some.injEq] at h
        subst h
        have hv := parseDigitDotToken_nonneg hpt
        first
        | exact hv
        | exact mul_nonneg hv (by norm_num)

/-- Token counts never normalize to a negative value (when no exception). -/
theorem normalize_tokens_nonneg (s : String) (p : ℚ × LogEntry)
    (h : normalize_tokens s = some p) : 0 ≤ p.1 := by
  simp only [normalize_tokens] at h
  split_ifs at h with hb
  · simp only [Option.some.injEq] at h; subst h; norm_num
  · cases hfr : firstRunSplit isDigitDot
        (removeWords token_words ((stripList s.toList).map Char.toLower)) with
    | none =>
      rw [hfr] at h
      simp only at h
      simp only [Option.some.injEq] at h
      subst h
      norm_num
    | some q =>
      rw [hfr] at h
      simp only at h
      cases hpt : parseDigitDotToken q.1 with
      | none => rw [hpt] at h; exact absurd h (by simp)
      | some v =>
        rw [hpt] at h
        simp only at h
        have hv := parseDigitDotToken_nonneg hpt
        split at h <;>
          (simp only [Option.some.injEq] at h; subst h;
           first
           | exact hv
           | exact mul_nonneg hv (by norm_num))

/-- API-call counts never normalize to a negative value. -/
theorem normalize_api_calls_nonneg (s : String) : 0 ≤ (normalize_api_calls s).1 := by
  by_cases hb : isBlank s = true
  · simp [normalize_api_calls, hb]
  · simp only [normalize_api_calls, hb, Bool.false_eq_true, if_false]
    cases hr : firstRunSplit (fun c => c.isDigit || c == ',')
        (removeWords api_call_words (stripList s.toList)) with
    | none => simp
    | some p =>
      by_cases hd : p.1.filter (· != ',') = []
      · simp [hd]
      · simp [hd]

/-- PUE never normalizes to a negative value. -/
theorem normalize_pue_nonneg (s : String) : 0 ≤ (normalize_pue s).1 := by
  have hdef : (0 : ℚ) ≤ default_pue := by norm_num [default_pue]
  by_cases hb : isBlank s = true
  · simpa [normalize_pue, hb] using hdef
  · simp only [normalize_pue, hb, Bool.false_eq_true, if_false]
    cases hr : firstRunSplit isDigitDot (stripList s.toList) with
    | none => simpa using hdef
    | some p =>
      cases hp : parseDigitDotToken p.1 with
      | none => simpa [hp] using hdef
      | some v =>
        by_cases hrange : v < 1 ∨ v > 3
        · simpa [hp, hrange] using hdef
        · simpa [hp, hrange] using parseDigitDotToken_nonneg hp

/-- With non-negative emissions, the Critic's `calculation_error` branch is
dead: no critical issue of that type is produced. -/
theorem check_critical_no_calc_error {d : NormalizedData} (h : 0 ≤ d.tco2e) :
    (check_critical_issues d).all (fun i => i.type != "calculation_error") = true := by
  unfold check_critical_issues
  rw [if_neg (not_lt.mpr h)]
  split_ifs <;> simp

/-- Claim C10: every field normalizer returns a non-negative number (the
extraction regexes never capture a minus sign — `"-50 kWh"` normalizes to
50); hence all numeric fields of a normalized record are non-negative, and
with a non-negative grid intensity the emissions are non-negative and the
Critic's `calculation_error` check can never fire. -/
theorem field_normalizers_nonneg :
    (∀ s : String, 0 ≤ (normalize_gpu_hours s).1)
    ∧ (∀ (s : String) (p : ℚ × LogEntry), normalize_energy s = some p → 0 ≤ p.1)
    ∧ (∀ (s : String) (p : ℚ × LogEntry), normalize_tokens s = some p → 0 ≤ p.1)
    ∧ (∀ s : String, 0 ≤ (normalize_api_calls s).1)
    ∧ (∀ s : String, 0 ≤ (normalize_utilization s).1)
    ∧ normalize_energy "-50 kWh" = some (50, LogEntry.clean)
    ∧ (∀ (raw : RawRecord) (grid : ℚ) (d : NormalizedData),
        (normalize_record raw grid).data = some d →
          0 ≤ d.gpu_hours ∧ 0 ≤ d.it_kwh ∧ 0 ≤ d.total_kwh ∧ 0 ≤ d.tokens
          ∧ 0 ≤ d.api_calls
          ∧ (0 ≤ grid → 0 ≤ d.tco2e
              ∧ (check_critical_issues d).all (fun i => i.type != "calculation_error")
                  = true)) := by
  refine ⟨normalize_gpu_hours_nonneg, normalize_energy_nonneg, normalize_tokens_nonneg,
    normalize_api_calls_nonneg, normalize_utilization_nonneg, by decide, ?_⟩
  intro raw grid d h
  unfold normalize_record at h
  cases he : normalize_energy raw.energy_raw with
  | none => rw [he] at h; simp at h
  | some ep =>
    rw [he] at h
    cases ht : normalize_tokens raw.tokens_raw with
    | none => rw [ht] at h; simp at h
    | some tp =>
      rw [ht] at h
      simp only [Option.some.injEq] at h
      subst h
      have hgpu := normalize_gpu_hours_nonneg raw.gpu_hours_raw
      have hutil := normalize_utilization_nonneg raw.utilization_raw
      have hpue := normalize_pue_nonneg raw.pue_raw
      have hit : 0 ≤ (if ep.1 ≤ 0 then
            (impute_missing_energy (normalize_gpu_hours raw.gpu_hours_raw).1
              (normalize_utilization raw.utilization_raw).1,
             LogEntry.imputed "Energy imputed from GPU hours")
          else (ep.1, LogEntry.clean)).1 := by
        by_cases hep : ep.1 ≤ 0
        · rw [if_pos hep]
          show 0 ≤ impute_missing_energy _ _
          unfold impute_missing_energy
          split_ifs
          · norm_num
          · exact mul_nonneg (mul_nonneg hgpu (by norm_num [default_gpu_power]))
              (div_nonneg hutil (by norm_num))
        · rw [if_neg hep]
          exact le_of_lt (not_le.mp hep)
      have htotal : 0 ≤ calculate_total_energy
          (if ep.1 ≤ 0 then
            (impute_missing_energy (normalize_gpu_hours raw.gpu_hours_raw).1
              (normalize_utilization raw.utilization_raw).1,
             LogEntry.imputed "Energy imputed from GPU hours")
          else (ep.1, LogEntry.clean)).1 (normalize_pue raw.pue_raw).1 :=
        mul_nonneg hit hpue
      refine ⟨hgpu, hit, htotal, normalize_tokens_nonneg _ _ ht,
        normalize_api_calls_nonneg _, ?_⟩
      intro hgrid
      have htco : (0:ℚ) ≤ calculate_total_energy
          (if ep.1 ≤ 0 then
            (impute_missing_energy (normalize_gpu_hours raw.gpu_hours_raw).1
              (normalize_utilization raw.utilization_raw).1,
             LogEntry.imputed "Energy imputed from GPU hours")
          else (ep.1, LogEntry.clean)).1 (normalize_pue raw.pue_raw).1 * grid / 1000000 :=
        div_nonneg (mul_nonneg htotal hgrid) (by norm_num)
      exact ⟨htco, check_critical_no_calc_error htco⟩

/-- Witness for claim C10 at the concrete input `"-50 kWh"`. -/
theorem field_normalizers_nonneg_witness :
    normalize_energy "-50 kWh" = some (50, LogEntry.clean) ∧ (0 : ℚ) ≤ (50 : ℚ) :=
  ⟨by decide, field_normalizers_nonneg.2.1 "-50 kWh" (50, LogEntry.clean) (by decide)⟩

/-! ## Agent-loop lemmas and the retry ceiling (claim C2) -/

/-- A successful normalization always carries data (the exception branches
report failure). -/
theorem normalize_record_success_data (raw : RawRecord) (grid : ℚ)
    (h : (normalize_record raw grid).success = true) :
    ∃ d, (normalize_record raw grid).data = some d := by
  unfold normalize_record at h ⊢
  cases he : normalize_energy raw.energy_raw with
  | none => rw [he] at h; simp at h
  | some ep =>
    rw [he] at h
    cases ht : normalize_tokens raw.tokens_raw with
    | none => rw [ht] at h; simp at h
    | some tp => exact ⟨_, rfl⟩

/-- A successful execution always carries normalized data. -/
theorem executeAttempt_success_data (raw : RawRecord) (grid : ℚ)
    (hs : (executeAttempt raw grid).success = true) :
    ∃ d, (executeAttempt raw grid).normalized_data = some d := by
  unfold executeAttempt execute_normalization at hs ⊢
  by_cases hn : (normalize_record raw grid).success = true
  · simp only [hn, if_true]
    exact normalize_record_success_data raw grid hn
  · simp [hn] at hs

/-- On the successful-execution path the Critic's issues are exactly the
critical/quality/anomaly checks of the data, independent of the retry
count. -/
theorem critique_results_issues (ex : ExecutionResult) (hs : ex.success = true)
    (d : NormalizedData) (rc : ℕ) :
    (critique_results ex (some d) rc).issues = critic_issues_of d := by
  unfold critique_results
  rw [if_neg (by simp [hs])]

/-- On the successful-execution path the Critic's retry decision is
`_should_retry` applied to the issues, the quality and the retry count. -/
theorem critique_results_retry (ex : ExecutionResult) (hs : ex.success = true)
    (d : NormalizedData) (rc : ℕ) :
    (critique_results ex (some d) rc).retry_needed
      = should_retry (critic_issues_of d) d.data_quality rc := by
  unfold critique_results
  rw [if_neg (by simp [hs])]

/-- At or past the retry ceiling `_should_retry` always answers false. -/
theorem should_retry_at_ceiling (issues : List CriticIssue) (q : ℚ) :
    should_retry issues q max_retries = false := by
  unfold should_retry
  rw [if_pos (le_refl _)]

/-- Below the ceiling, a critical issue always forces a retry. -/
theorem should_retry_of_critical {issues : List CriticIssue} {q : ℚ} {rc : ℕ}
    (hc : issues.any (fun i => i.severity == "critical") = true)
    (hrc : rc < max_retries) : should_retry issues q rc = true := by
  unfold should_retry
  rw [if_neg (not_le.mpr hrc), if_pos hc]

/-- Below the ceiling the retry decision does not depend on the count. -/
theorem should_retry_eq_of_lt (issues : List CriticIssue) (q : ℚ) (i j : ℕ)
    (hi : i < max_retries) (hj : j < max_retries) :
    should_retry issues q i = should_retry issues q j := by
  unfold should_retry
  rw [if_neg (not_le.mpr hi), if_neg (not_le.mpr hj)]

/-- Loop step: a successful execution whose critique asks for a retry below
the ceiling re-enters the loop with both counters advanced. -/
theorem processLoop_retry_step (raw : RawRecord) (grid : ℚ) (fuel rc att : ℕ)
    (hrc : rc ≤ max_retries)
    (hs : (executeAttempt raw grid).success = true)
    (hrn : (critique_results (executeAttempt raw grid)
        (executeAttempt raw grid).normalized_data rc).retry_needed = true)
    (hlt : rc < max_retries) :
    processLoop raw grid (fuel + 1) rc att = processLoop raw grid fuel (rc + 1) (att + 1) := by
  simp only [processLoop, hrc, if_true, hs, hrn, hlt, and_self]

/-- Loop step: a successful execution with no retry demanded (or at the
ceiling) saves the data and marks the record processed. -/
theorem processLoop_save_step (raw : RawRecord) (grid : ℚ) (fuel rc att : ℕ)
    (d : NormalizedData)
    (hrc : rc ≤ max_retries)
    (hs : (executeAttempt raw grid).success = true)
    (hd : (executeAttempt raw grid).normalized_data = some d)
    (hno : ¬((critique_results (executeAttempt raw grid)
        (executeAttempt raw grid).normalized_data rc).retry_needed = true
          ∧ rc < max_retries)) :
    processLoop raw grid (fuel + 1) rc att = ⟨att + 1, true, some d, false⟩ := by
  simp only [processLoop, hrc, if_true, hs]
  rw [if_neg hno, hd]

/-- Loop step: a failed execution re-enters the loop with both counters
advanced. -/
theorem processLoop_fail_step (raw : RawRecord) (grid : ℚ) (fuel rc att : ℕ)
    (hrc : rc ≤ max_retries)
    (hs : (executeAttempt raw grid).success = false) :
    processLoop raw grid (fuel + 1) rc att = processLoop raw grid fuel (rc + 1) (att + 1) := by
  simp only [processLoop, hrc, if_true, hs, Bool.false_eq_true, if_false]

/-- Loop exit: once the retry count passes the ceiling, the record is marked
processed with no data. -/
theorem processLoop_exit (raw : RawRecord) (grid : ℚ) (fuel rc att : ℕ)
    (h : ¬ rc ≤ max_retries) :
    processLoop raw grid (fuel + 1) rc att = ⟨att, true, none, false⟩ := by
  simp only [processLoop, h, if_false]

/-- Claim C2: when every attempt's execution succeeds but the Critic finds a
critical issue, `_process_record` performs exactly 4 attempts (initial + 3
retries), saves the best data and marks the record processed; on the final
attempt `_should_retry` answers false because the retry count has reached
`max_retries = 3`; and for EVERY record the loop terminates within 4
attempts with the record marked processed. -/
theorem process_record_retry_ceiling (raw : RawRecord) (grid : ℚ)
    (hs : (executeAttempt raw grid).success = true)
    (hc : (critique_results (executeAttempt raw grid)
        (executeAttempt raw grid).normalized_data 0).issues.any
          (fun i => i.severity == "critical") = true) :
    (process_record raw grid).attempts = 4
    ∧ (process_record raw grid).processed = true
    ∧ (process_record raw grid).saved = (executeAttempt raw grid).normalized_data
    ∧ should_retry
        (critique_results (executeAttempt raw grid)
          (executeAttempt raw grid).normalized_data 3).issues
        (critique_results (executeAttempt raw grid)
          (executeAttempt raw grid).normalized_data 3).quality_score 3 = false
    ∧ (∀ (raw' : RawRecord) (grid' : ℚ),
        (process_record raw' grid').attempts ≤ 4
        ∧ (process_record raw' grid').processed = true
        ∧ (process_record raw' grid').fuel_exhausted = false) := by
  obtain ⟨d, hd⟩ := executeAttempt_success_data raw grid hs
  have hc' : (critic_issues_of d).any (fun i => i.severity == "critical") = true := by
    rw [hd, critique_results_issues _ hs d 0] at hc
    exact hc
  have hrn : ∀ rc, rc < max_retries →
      (critique_results (executeAttempt raw grid)
        (executeAttempt raw grid).normalized_data rc).retry_needed = true := by
    intro rc hrc
    rw [hd, critique_results_retry _ hs d rc]
    exact should_retry_of_critical hc' hrc
  have hmain : process_record raw grid = ⟨4, true, some d, false⟩ := by
    have s0 : processLoop raw grid 5 0 0 = processLoop raw grid 4 1 1 :=
      processLoop_retry_step raw grid 4 0 0 (by decide) hs (hrn 0 (by decide)) (by decide)
    have s1 : processLoop raw grid 4 1 1 = processLoop raw grid 3 2 2 :=
      processLoop_retry_step raw grid 3 1 1 (by decide) hs (hrn 1 (by decide)) (by decide)
    have s2 : processLoop raw grid 3 2 2 = processLoop raw grid 2 3 3 :=
      processLoop_retry_step raw grid 2 2 2 (by decide) hs (hrn 2 (by decide)) (by decide)
    have s3 : processLoop raw grid 2 3 3 = ⟨4, true, some d, false⟩ :=
      processLoop_save_step raw grid 1 3 3 d (by decide) hs hd
        (fun hcontra => absurd hcontra.2 (by decide))
    exact (s0.trans (s1.trans (s2.trans s3)))
  have hceil : should_retry
      (critique_results (executeAttempt raw grid)
        (executeAttempt raw grid).normalized_data 3).issues
      (critique_results (executeAttempt raw grid)
        (executeAttempt raw grid).normalized_data 3).quality_score 3 = false :=
    should_retry_at_ceiling _ _
  refine ⟨by rw [hmain], by rw [hmain], by rw [hmain, hd], hceil, ?_⟩
  intro raw' grid'
  by_cases hs' : (executeAttempt raw' grid').success = true
  · obtain ⟨d', hd'⟩ := executeAttempt_success_data raw' grid' hs'
    by_cases hr0 : (critique_results (executeAttempt raw' grid')
        (executeAttempt raw' grid').normalized_data 0).retry_needed = true
    · have hrn' : ∀ rc, rc < max_retries →
          (critique_results (executeAttempt raw' grid')
            (executeAttempt raw' grid').normalized_data rc).retry_needed = true := by
        intro rc hrc
        rw [hd', critique_results_retry _ hs' d' rc]
        rw [hd', critique_results_retry _ hs' d' 0] at hr0
        rw [should_retry_eq_of_lt (critic_issues_of d') d'.data_quality rc 0 hrc (by decide)]
        exact hr0
      have s0 : processLoop raw' grid' 5 0 0 = processLoop raw' grid' 4 1 1 :=
        processLoop_retry_step raw' grid' 4 0 0 (by decide) hs' (hrn' 0 (by decide)) (by decide)
      have s1 : processLoop raw' grid' 4 1 1 = processLoop raw' grid' 3 2 2 :=
        processLoop_retry_step raw' grid' 3 1 1 (by decide) hs' (hrn' 1 (by decide)) (by decide)
      have s2 : processLoop raw' grid' 3 2 2 = processLoop raw' grid' 2 3 3 :=
        processLoop_retry_step raw' grid' 2 2 2 (by decide) hs' (hrn' 2 (by decide)) (by decide)
      have s3 : processLoop raw' grid' 2 3 3 = ⟨4, true, some d', false⟩ :=
        processLoop_save_step raw' grid' 1 3 3 d' (by decide) hs' hd'
          (fun hcontra => absurd hcontra.2 (by decide))
      have h4 : process_record raw' grid' = ⟨4, true, some d', false⟩ :=
        s0.trans (s1.trans (s2.trans s3))
      exact ⟨by rw [h4], by rw [h4], by rw [h4]⟩
    · have h1 : process_record raw' grid' = ⟨1, true, some d', false⟩ :=
        processLoop_save_step raw' grid' 4 0 0 d' (by decide) hs' hd'
          (fun hcontra => hr0 hcontra.1)
      exact ⟨by rw [h1]; norm_num, by rw [h1], by rw [h1]⟩
  · have hf : (executeAttempt raw' grid').success = false := by
      simpa using hs'
    have s0 : processLoop raw' grid' 5 0 0 = processLoop raw' grid' 4 1 1 :=
      processLoop_fail_step raw' grid' 4 0 0 (by decide) hf
    have s1 : processLoop raw' grid' 4 1 1 = processLoop raw' grid' 3 2 2 :=
      processLoop_fail_step raw' grid' 3 1 1 (by decide) hf
    have s2 : processLoop raw' grid' 3 2 2 = processLoop raw' grid' 2 3 3 :=
      processLoop_fail_step raw' grid' 2 2 2 (by decide) hf
    have s3 : processLoop raw' grid' 2 3 3 = processLoop raw' grid' 1 4 4 :=
      processLoop_fail_step raw' grid' 1 3 3 (by decide) hf
    have s4 : processLoop raw' grid' 1 4 4 = ⟨4, true, none, false⟩ :=
      processLoop_exit raw' grid' 0 4 4 (by decide)
    have h4 : process_record raw' grid' = ⟨4, true, none, false⟩ :=
      s0.trans (s1.trans (s2.trans (s3.trans s4)))
    exact ⟨by rw [h4], by rw [h4], by rw [h4]⟩

/-- Witness for claim C2: a clean record under a negative grid intensity
(every critique reports the critical `calculation_error`). -/
theorem process_record_retry_ceiling_witness :
    (process_record criticalLoopRaw (-1)).attempts = 4
    ∧ (process_record criticalLoopRaw (-1)).processed = true := by
  have h := process_record_retry_ceiling criticalLoopRaw (-1) (by decide) (by decide)
  exact ⟨h.1, h.2.1⟩

end CarbonAI
